import Mathlib

/-!
A shallow embedding of the evaluation orchestration implemented by the
notebook `lab-01-titan-cohere-embeddings-ragas.ipynb`: the record builder
(`execute_rag`), the run over all backends (`datasets` and `dfs` loops with
`evaluate_kb`), and the aggregation (`mean_values` / `means_df`).

External collaborators (the Bedrock retriever, the chat model, the ragas
scorers, the pandas mean) are embedded through their documented contracts:
the retriever returns at most `numberOfResults` ranked chunks, the chain
propagates exceptions, a ragas score frame has one cell per (row, metric)
with NaN for a failed scorer, and the pandas mean skips NaN cells.
Machine floats are modelled as exact rationals with `none` standing for NaN.
-/

/-- Exceptions raised by external calls, modelled as their messages. -/
abbrev Err := String

/-- Metric scores: pandas float cells modelled as exact rationals. -/
abbrev Value := ℚ

/-- A retrieved chunk as the Retrieve API returns it; only `page_content`
is consumed by `execute_rag`. -/
structure Document where
  page_content : String
deriving DecidableEq

/-- The response of `qa_chain.invoke`: the generated `result` and, because the
chain is built with `return_source_documents=True`, the retrieved documents. -/
structure ChainResponse where
  result : String
  source_documents : List Document
deriving DecidableEq

/-- `numberOfResults` from the notebook's
`retrieval_config = {"vectorSearchConfiguration": {"numberOfResults": 5}}`. -/
def numberOfResults : Nat := 5

/-- An `AmazonKnowledgeBasesRetriever`: the knowledge base behind it is
modelled as a ranked chunk list per query (`ranking`), which may fail. -/
structure Retriever where
  knowledge_base_id : String
  ranking : String → Except Err (List Document)

/-- The Retrieve API call made by the retriever: at most `numberOfResults` of
the knowledge base's ranked chunks come back, and a backend failure raises. -/
def retrieve (r : Retriever) (q : String) : Except Err (List Document) :=
  match r.ranking q with
  | Except.error e => Except.error e
  | Except.ok docs => Except.ok (docs.take numberOfResults)

/-- The stuff-documents prompt of `RetrievalQA.from_chain_type`: the retrieved
chunk texts are concatenated ahead of the question. -/
def stuffPrompt (docs : List Document) (q : String) : String :=
  String.intercalate "\n\n" (docs.map Document.page_content) ++ "\n\nQuestion: " ++ q

/-- `qa_chain.invoke` for one query: retrieve, generate from the stuffed
prompt, and return the answer with the source documents. An exception from
either port propagates. -/
def qaChain (r : Retriever) (llm : String → Except Err String) (q : String) :
    Except Err ChainResponse :=
  match retrieve r q with
  | Except.error e => Except.error e
  | Except.ok docs =>
    match llm (stuffPrompt docs q) with
    | Except.error e => Except.error e
    | Except.ok ans => Except.ok { result := ans, source_documents := docs }

/-- The notebook's three evaluation questions, before the instruction
preamble is prepended. -/
def rawQuestions : List String :=
  [ "What was the primary reason for the increase in net cash provided by operating activities for Octank Financial in 2021?"
  , "In which year did Octank Financial have the highest net cash used in investing activities, and what was the primary reason for this?"
  , "What was the primary source of cash inflows from financing activities for Octank Financial in 2021?" ]

/-- The instruction preamble the notebook prepends to every question. -/
def instructionPreamble : String :=
  "Keep your answers under 2000 characters in length. Only use information you are sure about from the knowledge base. "

/-- `questions = [prefix + question for question in questions]`: the prefixed
question list every backend is evaluated on. -/
def questions : List String :=
  rawQuestions.map (fun q => instructionPreamble ++ q)

/-- The fixed ground-truth reference answers. -/
def ground_truth : List String :=
  [ "The increase in net cash provided by operating activities was primarily due to an increase in net income and favorable changes in operating assets and liabilities."
  , "Octank Financial had the highest net cash used in investing activities in 2021, at $360 million, compared to $290 million in 2020 and $240 million in 2019. The primary reason for this was an increase in purchases of property, plant, and equipment and marketable securities."
  , "The primary source of cash inflows from financing activities for Octank Financial in 2021 was an increase in proceeds from the issuance of common stock and long-term debt." ]

/-- The dict of four parallel lists staged by `execute_rag` and turned into a
`Dataset`. -/
structure RagData where
  question : List String
  answer : List String
  contexts : List (List String)
  ground_truth : List String
deriving DecidableEq

/-- The loop body of `execute_rag`: for each query in order, invoke the chain
and append the answer and the page contents of the source documents. There is
no handler, so an exception aborts the loop and propagates. -/
def runQueries (chain : String → Except Err ChainResponse) :
    List String → Except Err (List String × List (List String))
  | [] => Except.ok ([], [])
  | q :: qs =>
    match chain q with
    | Except.error e => Except.error e
    | Except.ok resp =>
      match runQueries chain qs with
      | Except.error e => Except.error e
      | Except.ok rest =>
        Except.ok (resp.result :: rest.1,
          (resp.source_documents.map Document.page_content) :: rest.2)

/-- `execute_rag` for one backend's chain: answer every prefixed question and
stage the four parallel lists (the global `questions` and `ground_truth`
together with the accumulated answers and contexts). -/
def executeRag (chain : String → Except Err ChainResponse) : Except Err RagData :=
  match runQueries chain questions with
  | Except.error e => Except.error e
  | Except.ok p =>
    Except.ok { question := questions, answer := p.1, contexts := p.2,
                ground_truth := ground_truth }

/-- One compared configuration: a knowledge base id together with the QA chain
built over its retriever. -/
structure Backend where
  knowledgeBaseId : String
  chain : String → Except Err ChainResponse

/-- The `datasets` loop: `execute_rag` for every backend in registration
order, keyed by knowledge base id. An exception in any build propagates out
of the loop unhandled. -/
def buildDatasets : List Backend → Except Err (List (String × RagData))
  | [] => Except.ok []
  | b :: bs =>
    match executeRag b.chain with
    | Except.error e => Except.error e
    | Except.ok d =>
      match buildDatasets bs with
      | Except.error e => Except.error e
      | Except.ok rest => Except.ok ((b.knowledgeBaseId, d) :: rest)

/-- The registered ragas metric names, in the order of the notebook's
`metrics` list. -/
def metrics : List String :=
  [ "answer_relevancy", "context_precision", "context_recall"
  , "context_entity_recall", "answer_similarity", "answer_correctness" ]

/-- A scoring oracle abstracting the ragas scorers with their judge and
embedding calls: the outcome a scorer produces for a metric on one dataset
row, `none` when the scorer fails (ragas records NaN for such cells). -/
abbrev ScoreOracle := Nat → String → Option Value

/-- A score frame: one row per dataset row, one cell per registered metric. -/
abbrev ScoreFrame := List (List (Option Value))

/-- The contract of ragas `evaluate(...).to_pandas()` as `evaluate_kb` uses
it: the frame has exactly one cell per (dataset row, registered metric), and a
scorer failure yields a NaN cell instead of raising — the notebook itself
notes that per-cell "failed to parse output" errors are to be disregarded. -/
def ragasEvaluate (ds : RagData) (ms : List String) (score : ScoreOracle) :
    ScoreFrame :=
  (List.range ds.question.length).map (fun i => ms.map (fun m => score i m))

/-- The run's result: one score frame per backend, keyed by kb id. -/
abbrev RunResult := List (String × ScoreFrame)

/-- The whole run of the notebook: build one dataset per backend (the
`datasets` loop), then score each (the `dfs` loop calling `evaluate_kb`).
A record-build exception propagates to the caller. -/
def runAll (bs : List Backend) (score : String → ScoreOracle) :
    Except Err RunResult :=
  match buildDatasets bs with
  | Except.error e => Except.error e
  | Except.ok ds =>
    Except.ok (ds.map (fun p => (p.1, ragasEvaluate p.2 metrics (score p.1))))

/-- Total number of score cells in a run's result. -/
def cellCount (t : RunResult) : Nat :=
  (t.map (fun p => (p.2.map List.length).sum)).sum

/-- The cell at backend position `bi`, dataset row `i`, metric column `j`. -/
def cellAt (t : RunResult) (bi i j : Nat) : Option Value :=
  (((t.getD bi ("", [])).2.getD i []).getD j none)

/-- `numeric_cols` of the aggregation cell: the six metric columns. -/
def numeric_cols : List String :=
  [ "answer_relevancy", "context_precision", "context_recall"
  , "context_entity_recall", "answer_similarity", "answer_correctness" ]

/-- One pass over a column accumulating the sum and count of the non-NaN
cells, the way the pandas nan-skipping mean does. -/
def nanSumCount : List (Option Value) → Value × Nat
  | [] => (0, 0)
  | none :: rest => nanSumCount rest
  | some v :: rest => ((nanSumCount rest).1 + v, (nanSumCount rest).2 + 1)

/-- `pandas.Series.mean()` with its default `skipna=True`: NaN cells are
skipped, and a column with no non-NaN cell has mean NaN (`none`). -/
def meanSkipNA (cells : List (Option Value)) : Option Value :=
  if (nanSumCount cells).2 = 0 then none
  else some ((nanSumCount cells).1 / ((nanSumCount cells).2 : Value))

/-- Column `j` of a score frame. -/
def columnOf (df : ScoreFrame) (j : Nat) : List (Option Value) :=
  df.map (fun row => row.getD j none)

/-- The mean of metric column `j`, as `df[numeric_cols].mean()` computes it
per column. -/
def meanColumn (df : ScoreFrame) (j : Nat) : Option Value :=
  meanSkipNA (columnOf df j)

/-- `mean_values = df[numeric_cols].mean()`: one nan-skipping mean per
registered metric column. -/
def meansRow (df : ScoreFrame) : List (Option Value) :=
  (List.range numeric_cols.length).map (fun j => meanColumn df j)

/-- `means_df`: the comparison view — one row per backend, in the order the
frames were produced (backend registration order), holding per-metric means. -/
def meansDf (dfs : List (String × ScoreFrame)) : List (String × List (Option Value)) :=
  dfs.map (fun p => (p.1, meansRow p.2))

/-- Number of error (NaN) cells in a score frame. -/
def errorCellCount (df : ScoreFrame) : Nat :=
  (df.map (fun row => (row.filter Option.isNone).length)).sum

/-! Concrete instances used to exercise the definitions. -/

/-- A model that always answers. -/
def llmConst : String → Except Err String := fun _ => Except.ok "generated answer"

/-- A retriever whose knowledge base ranks seven chunks for every query. -/
def retrieverSeven : Retriever :=
  { knowledge_base_id := "kb-seven"
  , ranking := fun _ => Except.ok (List.replicate 7 { page_content := "chunk" }) }

/-- A retriever whose knowledge base returns zero chunks for every query. -/
def retrieverEmpty : Retriever :=
  { knowledge_base_id := "kb-empty"
  , ranking := fun _ => Except.ok [] }

/-- A retriever whose backend is unavailable: every retrieval raises. -/
def retrieverBoom : Retriever :=
  { knowledge_base_id := "kb-boom"
  , ranking := fun _ => Except.error "retrieval down" }

/-- A chain that raises on every query. -/
def chainBoom : String → Except Err ChainResponse := fun _ => Except.error "boom"

/-- A healthy backend whose chain answers every query with no sources. -/
def backendGood : Backend :=
  { knowledgeBaseId := "kb-good"
  , chain := fun _ => Except.ok { result := "a", source_documents := [] } }

/-- A backend whose chain raises on every query. -/
def backendBad : Backend := { knowledgeBaseId := "kb-bad", chain := chainBoom }

/-- The record `execute_rag` builds over `backendGood`'s chain. -/
def dataGood : RagData :=
  { question := questions
  , answer := List.replicate 3 "a"
  , contexts := List.replicate 3 []
  , ground_truth := ground_truth }

/-- The record `execute_rag` builds over `retrieverSeven` with `llmConst`. -/
def dataSeven : RagData :=
  { question := questions
  , answer := List.replicate 3 "generated answer"
  , contexts := List.replicate 3 (List.replicate 5 "chunk")
  , ground_truth := ground_truth }

/-- The record `execute_rag` builds over `retrieverEmpty` with `llmConst`. -/
def dataEmpty : RagData :=
  { question := questions
  , answer := List.replicate 3 "generated answer"
  , contexts := List.replicate 3 []
  , ground_truth := ground_truth }

/-- A scoring oracle that always succeeds with score 1. -/
def scoreOne : String → ScoreOracle := fun _ _ _ => some 1

/-- A scoring oracle on which one metric's scorer always fails while the
others succeed. -/
def scoreMixed : String → ScoreOracle :=
  fun _ _ m => if m = "context_recall" then none else some (4 / 5)

/-- A frame whose cells are all NaN. -/
def dfAllNaN : ScoreFrame := [List.replicate 6 none]

/-- A one-row frame scoring 1/2 on every metric. -/
def dfHalf : ScoreFrame := [List.replicate 6 (some (1 / 2))]

/-- `dfHalf` with an extra row of error cells. -/
def dfHalfErr : ScoreFrame :=
  [List.replicate 6 (some (1 / 2)), List.replicate 6 none]

/-- A one-row frame scoring 1/5 on every metric. -/
def dfLow : ScoreFrame := [List.replicate 6 (some (1 / 5))]

/-- A one-row frame scoring 4/5 on every metric. -/
def dfHigh : ScoreFrame := [List.replicate 6 (some (4 / 5))]

/-! Helper lemmas about the embedded operations. -/

/-- The question list is nonempty. -/
theorem questions_ne_nil : questions ≠ [] := by
  simp [questions, rawQuestions]

/-- `getD` through `List.map`, inside the bounds. -/
theorem getD_map_of_lt {α β : Type} (l : List α) (f : α → β) (i : Nat)
    (h : i < l.length) (d : β) (d' : α) :
    (l.map f).getD i d = f (l.getD i d') := by
  rw [List.getD_eq_getElem?_getD, List.getD_eq_getElem?_getD, List.getElem?_map,
    List.getElem?_eq_getElem h]
  simp

/-- `getD` on `List.range`, inside the bounds. -/
theorem getD_range_of_lt (n i : Nat) (h : i < n) : (List.range n).getD i 0 = i := by
  rw [List.getD_eq_getElem?_getD, List.getElem?_eq_getElem (by simpa using h)]
  simp

/-- A successful `runQueries` returns one answer and one context list per
query, each produced by invoking the chain on that query. -/
theorem runQueries_ok_spec (chain : String → Except Err ChainResponse) :
    ∀ (qs : List String) (p : List String × List (List String)),
      runQueries chain qs = Except.ok p →
      p.1.length = qs.length ∧ p.2.length = qs.length ∧
      ∀ i, i < qs.length →
        ∃ resp, chain (qs.getD i "") = Except.ok resp ∧
          p.1.getD i "" = resp.result ∧
          p.2.getD i [] = resp.source_documents.map Document.page_content
  | [], p, h => by
    simp only [runQueries, Except.ok.injEq] at h
    subst h
    exact ⟨rfl, rfl, fun i hi => absurd hi (by simp)⟩
  | q :: qs, p, h => by
    simp only [runQueries] at h
    split at h
    · exact Except.noConfusion h
    · rename_i resp hc
      split at h
      · exact Except.noConfusion h
      · rename_i rest hr
        obtain ⟨hl1, hl2, hpt⟩ := runQueries_ok_spec chain qs rest hr
        simp only [Except.ok.injEq] at h
        subst h
        refine ⟨by simp [hl1], by simp [hl2], ?_⟩
        intro i hi
        cases i with
        | zero => exact ⟨resp, by simpa using hc, by simp, by simp⟩
        | succ n => simpa using hpt n (by simp only [List.length_cons] at hi; omega)

/-- A successful `execute_rag` holds the global question and ground-truth
lists and the loop's outputs. -/
theorem executeRag_ok_inv (chain : String → Except Err ChainResponse)
    (d : RagData) (h : executeRag chain = Except.ok d) :
    d.question = questions ∧ d.ground_truth = ground_truth ∧
    runQueries chain questions = Except.ok (d.answer, d.contexts) := by
  simp only [executeRag] at h
  split at h
  · exact Except.noConfusion h
  · rename_i p hp
    simp only [Except.ok.injEq] at h
    subst h
    exact ⟨rfl, rfl, hp⟩

/-- An error in `runQueries` propagates out of `execute_rag`. -/
theorem executeRag_error_of (chain : String → Except Err ChainResponse) (e : Err)
    (h : runQueries chain questions = Except.error e) :
    executeRag chain = Except.error e := by
  simp only [executeRag, h]

/-- A chain that always raises makes `runQueries` raise on a nonempty list. -/
theorem runQueries_error_of (chain : String → Except Err ChainResponse) (e : Err)
    (hch : ∀ q, chain q = Except.error e) :
    ∀ qs : List String, qs ≠ [] → runQueries chain qs = Except.error e
  | [], h => absurd rfl h
  | q :: qs, _ => by simp only [runQueries, hch q]

/-- A chain that never succeeds makes `runQueries` never succeed on a
nonempty list. -/
theorem runQueries_never_ok (chain : String → Except Err ChainResponse)
    (hch : ∀ q resp, chain q ≠ Except.ok resp) :
    ∀ qs : List String, qs ≠ [] →
      ∀ p, runQueries chain qs ≠ Except.ok p
  | [], h => absurd rfl h
  | q :: qs, _ => by
    intro p hp
    simp only [runQueries] at hp
    split at hp
    · exact Except.noConfusion hp
    · rename_i resp hc
      exact hch q resp hc

/-- A chain that always succeeds with zero sources yields all-empty context
lists. -/
theorem runQueries_empty_sources (chain : String → Except Err ChainResponse)
    (hch : ∀ q, ∃ resp, chain q = Except.ok resp ∧ resp.source_documents = []) :
    ∀ qs : List String, ∃ p, runQueries chain qs = Except.ok p ∧
      p.2 = List.replicate qs.length []
  | [] => ⟨([], []), rfl, rfl⟩
  | q :: qs => by
    obtain ⟨resp, hresp, hsd⟩ := hch q
    obtain ⟨p, hp, hctx⟩ := runQueries_empty_sources chain hch qs
    refine ⟨(resp.result :: p.1, [] :: p.2), ?_, by simp [hctx, List.replicate_succ]⟩
    simp only [runQueries, hresp, hp, hsd]
    simp

/-- Inverting a successful chain invocation: the source documents are the
knowledge base's ranked chunks cut to `numberOfResults`. -/
theorem qaChain_ok_inv (r : Retriever) (llm : String → Except Err String)
    (q : String) (resp : ChainResponse) (h : qaChain r llm q = Except.ok resp) :
    ∃ l, r.ranking q = Except.ok l ∧
      resp.source_documents = l.take numberOfResults := by
  cases hrank : r.ranking q with
  | error e =>
    rw [qaChain, retrieve, hrank] at h
    exact Except.noConfusion h
  | ok l =>
    cases hllm : llm (stuffPrompt (l.take numberOfResults) q) with
    | error e =>
      rw [qaChain, retrieve, hrank] at h
      simp only [hllm] at h
      exact Except.noConfusion h
    | ok ans =>
      rw [qaChain, retrieve, hrank] at h
      simp only [hllm, Except.ok.injEq] at h
      subst h
      exact ⟨l, rfl, rfl⟩

/-- Every context list a chain-built record holds has at most
`numberOfResults` entries. -/
theorem runQueries_contexts_le (r : Retriever) (llm : String → Except Err String) :
    ∀ (qs : List String) (p : List String × List (List String)),
      runQueries (qaChain r llm) qs = Except.ok p →
      ∀ ctx ∈ p.2, ctx.length ≤ numberOfResults
  | [], p, h => by
    simp only [runQueries, Except.ok.injEq] at h
    subst h
    simp
  | q :: qs, p, h => by
    simp only [runQueries] at h
    split at h
    · exact Except.noConfusion h
    · rename_i resp hc
      split at h
      · exact Except.noConfusion h
      · rename_i rest hr
        simp only [Except.ok.injEq] at h
        subst h
        intro ctx hctx
        rcases List.mem_cons.mp hctx with rfl | hmem
        · obtain ⟨l, _, hsd⟩ := qaChain_ok_inv r llm q resp hc
          rw [List.length_map, hsd]
          exact List.length_take_le _ _
        · exact runQueries_contexts_le r llm qs rest hr ctx hmem

/-- A successful `datasets` loop yields one dataset per backend, each carrying
the global question and ground-truth lists. -/
theorem buildDatasets_ok_of :
    ∀ bs : List Backend, (∀ b ∈ bs, ∃ d, executeRag b.chain = Except.ok d) →
      ∃ ds, buildDatasets bs = Except.ok ds ∧ ds.length = bs.length ∧
        ∀ p ∈ ds, p.2.question = questions ∧ p.2.ground_truth = ground_truth
  | [], _ => ⟨[], rfl, rfl, by simp⟩
  | b :: bs, hok => by
    obtain ⟨d, hd⟩ := hok b (by simp)
    obtain ⟨ds, hds, hlen, hfields⟩ :=
      buildDatasets_ok_of bs (fun b' hb' => hok b' (by simp [hb']))
    refine ⟨(b.knowledgeBaseId, d) :: ds, ?_, by simp [hlen], ?_⟩
    · simp only [buildDatasets, hd, hds]
    · intro p hp
      rcases List.mem_cons.mp hp with rfl | hmem
      · obtain ⟨hq, hg, _⟩ := executeRag_ok_inv b.chain d hd
        exact ⟨hq, hg⟩
      · exact hfields p hmem

/-- A build failure for any backend makes the whole `datasets` loop raise. -/
theorem buildDatasets_error_of :
    ∀ bs : List Backend, (∃ b ∈ bs, ∃ e, executeRag b.chain = Except.error e) →
      ∃ e, buildDatasets bs = Except.error e
  | [], h => absurd h (by simp)
  | b :: bs, h => by
    cases hc : executeRag b.chain with
    | error e => exact ⟨e, by simp only [buildDatasets, hc]⟩
    | ok d =>
      have htail : ∃ b' ∈ bs, ∃ e, executeRag b'.chain = Except.error e := by
        obtain ⟨b', hb', e, he⟩ := h
        rcases List.mem_cons.mp hb' with rfl | hmem
        · rw [hc] at he
          exact Except.noConfusion he
        · exact ⟨b', hmem, e, he⟩
      obtain ⟨e, he⟩ := buildDatasets_error_of bs htail
      exact ⟨e, by simp only [buildDatasets, hc, he]⟩

/-- A ragas score frame has one row per dataset row, each with one cell per
registered metric. -/
theorem ragasEvaluate_shape (d : RagData) (ms : List String) (score : ScoreOracle) :
    (ragasEvaluate d ms score).length = d.question.length ∧
    ∀ row ∈ ragasEvaluate d ms score, row.length = ms.length := by
  refine ⟨by simp [ragasEvaluate], ?_⟩
  intro row hrow
  simp only [ragasEvaluate, List.mem_map] at hrow
  obtain ⟨i, _, rfl⟩ := hrow
  simp

/-- Summing row widths over a frame of uniform width. -/
theorem frame_cell_sum (df : ScoreFrame) (m : Nat)
    (hrows : ∀ row ∈ df, row.length = m) :
    (df.map List.length).sum = df.length * m := by
  induction df with
  | nil => simp
  | cons row rest ih =>
    simp only [List.map_cons, List.sum_cons, List.length_cons]
    rw [hrows row (by simp), ih (fun r hr => hrows r (by simp [hr]))]
    ring

/-- `cellCount` over a result whose frames all hold `c` cells. -/
theorem cellCount_of_const (t : RunResult) (c : Nat)
    (h : ∀ p ∈ t, ((p.2).map List.length).sum = c) :
    cellCount t = t.length * c := by
  induction t with
  | nil => simp [cellCount]
  | cons p rest ih =>
    have hp := h p (by simp)
    have ih' := ih (fun q hq => h q (by simp [hq]))
    simp only [cellCount, List.map_cons, List.sum_cons, List.length_cons] at ih' ⊢
    rw [hp, ih']
    ring

/-- The nan-skipping accumulator agrees with filtering out the NaN cells. -/
theorem nanSumCount_eq (cells : List (Option Value)) :
    nanSumCount cells = ((cells.filterMap id).sum, (cells.filterMap id).length) := by
  induction cells with
  | nil => rfl
  | cons c rest ih =>
    cases c with
    | none => simpa [nanSumCount] using ih
    | some v => simp [nanSumCount, ih, add_comm]

/-! Claim theorems. -/

/-- Claim C1: with the scorers modelled by their per-cell contract, a run in
which every record build succeeds returns one score frame per backend holding
exactly one cell per (question, applicable metric) — |Q|·|B|·|M| cells in
total — while a record that fails to build contributes zero cells (the
unhandled exception leaves the run with no table at all), so the cell count
is a function of the build success/failure outcomes alone. -/
theorem run_cell_count (bs : List Backend) (score : String → ScoreOracle) :
    ((∀ b ∈ bs, ∃ d, executeRag b.chain = Except.ok d) →
      ∃ t, runAll bs score = Except.ok t ∧
        t.length = bs.length ∧
        (∀ p ∈ t, (p.2).length = questions.length ∧
          ∀ row ∈ p.2, row.length = metrics.length) ∧
        cellCount t = bs.length * (questions.length * metrics.length))
    ∧ ((∃ b ∈ bs, ∃ e, executeRag b.chain = Except.error e) →
      ∃ e, runAll bs score = Except.error e) := by
  constructor
  · intro hok
    obtain ⟨ds, hds, hlen, hfields⟩ := buildDatasets_ok_of bs hok
    refine ⟨ds.map (fun p => (p.1, ragasEvaluate p.2 metrics (score p.1))),
      by simp only [runAll, hds], by simp [hlen], ?_, ?_⟩
    · intro p hp
      simp only [List.mem_map] at hp
      obtain ⟨q, hq, rfl⟩ := hp
      obtain ⟨hsh1, hsh2⟩ := ragasEvaluate_shape q.2 metrics (score q.1)
      exact ⟨by rw [hsh1, (hfields q hq).1], hsh2⟩
    · have hconst : ∀ p ∈ ds.map (fun p => (p.1, ragasEvaluate p.2 metrics (score p.1))),
          ((p.2).map List.length).sum = questions.length * metrics.length := by
        intro p hp
        simp only [List.mem_map] at hp
        obtain ⟨q, hq, rfl⟩ := hp
        obtain ⟨hsh1, hsh2⟩ := ragasEvaluate_shape q.2 metrics (score q.1)
        rw [frame_cell_sum _ _ hsh2, hsh1, (hfields q hq).1]
      rw [cellCount_of_const _ _ hconst]
      simp [hlen]
  · intro hfail
    obtain ⟨e, he⟩ := buildDatasets_error_of bs hfail
    exact ⟨e, by simp only [runAll, he]⟩

/-- Witness for C1 at one healthy backend and an always-succeeding oracle. -/
theorem run_cell_count_w :
    ∃ t, runAll [backendGood] scoreOne = Except.ok t ∧
      t.length = [backendGood].length ∧
      (∀ p ∈ t, (p.2).length = questions.length ∧
        ∀ row ∈ p.2, row.length = metrics.length) ∧
      cellCount t = [backendGood].length * (questions.length * metrics.length) :=
  (run_cell_count [backendGood] scoreOne).1
    (by
      intro b hb
      have hb' := List.mem_singleton.mp hb
      subst hb'
      exact ⟨dataGood, rfl⟩)

/-- Claim C2 counterexample: a per-record build error is NOT captured as data
but raised to the caller — the run over a healthy first backend and a failing
second backend returns the raw exception instead of a best-effort table, even
though the healthy backend's record was built, so the run does not "always
complete" and no failed-cell count is returned. -/
theorem run_raises_build_error :
    runAll [backendGood, backendBad] scoreOne = Except.error "boom" ∧
    executeRag backendGood.chain = Except.ok dataGood :=
  ⟨rfl, rfl⟩

/-- Claim C2 (amended): per-cell scoring errors are captured as data, never
raised: when every record build succeeds the run returns a table regardless of
scorer outcomes, and each cell equals its own scorer's outcome (`none` for a
failure), so one metric's scorer failure never affects the presence or value
of other metrics' cells. Per-record build errors, however, propagate to the
caller and abort the run, and no failed-cell count or zero-success check
exists. -/
theorem cells_equal_own_scorer (bs : List Backend) (score : String → ScoreOracle)
    (hok : ∀ b ∈ bs, ∃ d, executeRag b.chain = Except.ok d) :
    ∃ t, runAll bs score = Except.ok t ∧ t.length = bs.length ∧
      ∀ bi i j, bi < t.length → i < questions.length → j < metrics.length →
        cellAt t bi i j = score (t.getD bi ("", [])).1 i (metrics.getD j "") := by
  obtain ⟨ds, hds, hlen, hfields⟩ := buildDatasets_ok_of bs hok
  refine ⟨ds.map (fun p => (p.1, ragasEvaluate p.2 metrics (score p.1))),
    by simp only [runAll, hds], by simp [hlen], ?_⟩
  intro bi i j hbi hi hj
  rw [List.length_map] at hbi
  have hget : (ds.map (fun p => (p.1, ragasEvaluate p.2 metrics (score p.1)))).getD bi ("", []) =
      ((ds.getD bi ("", ⟨[], [], [], []⟩)).1,
        ragasEvaluate (ds.getD bi ("", ⟨[], [], [], []⟩)).2 metrics
          (score (ds.getD bi ("", ⟨[], [], [], []⟩)).1)) :=
    getD_map_of_lt ds _ bi hbi ("", []) ("", ⟨[], [], [], []⟩)
  have hpmem : ds.getD bi ("", ⟨[], [], [], []⟩) ∈ ds := by
    rw [List.getD_eq_getElem?_getD, List.getElem?_eq_getElem hbi]
    exact List.getElem_mem hbi
  have hq : (ds.getD bi ("", ⟨[], [], [], []⟩)).2.question = questions :=
    (hfields _ hpmem).1
  have h1 : (ragasEvaluate (ds.getD bi ("", ⟨[], [], [], []⟩)).2 metrics
        (score (ds.getD bi ("", ⟨[], [], [], []⟩)).1)).getD i [] =
      metrics.map (fun m => score (ds.getD bi ("", ⟨[], [], [], []⟩)).1 i m) := by
    rw [ragasEvaluate,
      getD_map_of_lt _ _ i (by rw [List.length_range, hq]; exact hi) [] 0,
      getD_range_of_lt _ i (by rw [hq]; exact hi)]
  have h2 : (metrics.map (fun m => score (ds.getD bi ("", ⟨[], [], [], []⟩)).1 i m)).getD j none =
      score (ds.getD bi ("", ⟨[], [], [], []⟩)).1 i (metrics.getD j "") :=
    getD_map_of_lt metrics _ j hj none ""
  simp only [cellAt, hget, h1, h2]

/-- Witness for C2 at one healthy backend and an oracle whose
`context_recall` scorer always fails. -/
theorem cells_equal_own_scorer_w :
    ∃ t, runAll [backendGood] scoreMixed = Except.ok t ∧
      t.length = [backendGood].length ∧
      ∀ bi i j, bi < t.length → i < questions.length → j < metrics.length →
        cellAt t bi i j = scoreMixed (t.getD bi ("", [])).1 i (metrics.getD j "") :=
  cells_equal_own_scorer [backendGood] scoreMixed
    (by
      intro b hb
      have hb' := List.mem_singleton.mp hb
      subst hb'
      exact ⟨dataGood, rfl⟩)

/-- Claim C3: a (backend, metric) pair whose column holds zero successful
values gets the explicit no-data marker NaN (`none`) from the pandas mean,
never the numeric mean 0.0. -/
theorem mean_no_data (df : ScoreFrame) (j : Nat)
    (h : ∀ c ∈ columnOf df j, c = none) :
    meanColumn df j = none ∧ meanColumn df j ≠ some 0 := by
  have hnil : (columnOf df j).filterMap id = [] := by
    rw [List.filterMap_eq_nil_iff]
    intro c hc
    rw [h c hc]
    rfl
  have hcnt : (nanSumCount (columnOf df j)).2 = 0 := by
    rw [nanSumCount_eq, hnil]
    rfl
  constructor
  · simp [meanColumn, meanSkipNA, hcnt]
  · simp [meanColumn, meanSkipNA, hcnt]

/-- Witness for C3 on an all-NaN frame. -/
theorem mean_no_data_w :
    meanColumn dfAllNaN 0 = none ∧ meanColumn dfAllNaN 0 ≠ some 0 :=
  mean_no_data dfAllNaN 0 (by decide)

/-- Claim C4 counterexample: no error-cell count is recorded alongside the
mean — two frames with identical successful values but different numbers of
error cells produce identical summary rows, so the count of failed cells for
a (backend, metric) pair is not part of the summary. -/
theorem summary_lacks_error_count :
    meansRow dfHalf = meansRow dfHalfErr ∧
    errorCellCount dfHalf = 0 ∧ errorCellCount dfHalfErr = 6 :=
  ⟨rfl, rfl, rfl⟩

/-- Claim C4 (amended): for a (backend, metric) column with at least one
successful cell, the summary statistic is the arithmetic mean over exactly the
cells holding a successful value — error cells enter neither the numerator
nor the denominator; no separate count of error cells is recorded. -/
theorem mean_over_successes (df : ScoreFrame) (j : Nat)
    (h : (columnOf df j).filterMap id ≠ []) :
    meanColumn df j =
      some (((columnOf df j).filterMap id).sum /
        (((columnOf df j).filterMap id).length : Value)) := by
  have hlen : ((columnOf df j).filterMap id).length ≠ 0 :=
    fun hc => h (List.length_eq_zero.mp hc)
  simp [meanColumn, meanSkipNA, nanSumCount_eq, hlen]

/-- Witness for C4 on a frame with one successful and one error cell per
column. -/
theorem mean_over_successes_w :
    meanColumn dfHalfErr 0 =
      some (((columnOf dfHalfErr 0).filterMap id).sum /
        (((columnOf dfHalfErr 0).filterMap id).length : Value)) :=
  mean_over_successes dfHalfErr 0 (by decide)

/-- Claim C5 counterexample: a Retrieval Port returning zero contexts does
NOT make the record builder fail — `execute_rag` over a retriever whose
knowledge base returns no chunks still produces an EvaluationRecord, with
empty context lists, for every (question, backend) pair. -/
theorem zero_contexts_builds_record :
    executeRag (qaChain retrieverEmpty llmConst) = Except.ok dataEmpty ∧
    dataEmpty.contexts = List.replicate 3 [] :=
  ⟨rfl, rfl⟩

/-- Claim C5 (amended): when the Retrieval Port raises, the record builder
fails by propagating the raw exception (there is no typed RetrievalError and
no builder-level retry) and no record is produced; likewise a raising
Generation Port yields no record; but a retrieval that returns zero contexts
is not a failure — a record with empty context lists is built. -/
theorem record_builder_failure_modes (r : Retriever)
    (llm : String → Except Err String) (e : Err) :
    ((∀ q, r.ranking q = Except.error e) →
      executeRag (qaChain r llm) = Except.error e)
    ∧ ((∀ s, llm s = Except.error e) →
      ∀ d, executeRag (qaChain r llm) ≠ Except.ok d)
    ∧ ((∀ q, r.ranking q = Except.ok []) →
      (∀ s, ∃ a, llm s = Except.ok a) →
      ∃ d, executeRag (qaChain r llm) = Except.ok d ∧
        d.contexts = List.replicate questions.length []) := by
  refine ⟨?_, ?_, ?_⟩
  · intro hr
    have hch : ∀ q, qaChain r llm q = Except.error e := by
      intro q
      rw [qaChain, retrieve, hr q]
    exact executeRag_error_of _ e
      (runQueries_error_of _ e hch questions questions_ne_nil)
  · intro hllm d hd
    obtain ⟨_, _, hrq⟩ := executeRag_ok_inv _ d hd
    have hch : ∀ q resp, qaChain r llm q ≠ Except.ok resp := by
      intro q resp hq
      cases hrank : r.ranking q with
      | error e' =>
        rw [qaChain, retrieve, hrank] at hq
        exact Except.noConfusion hq
      | ok l =>
        rw [qaChain, retrieve, hrank] at hq
        simp only [hllm] at hq
        exact Except.noConfusion hq
    exact runQueries_never_ok _ hch questions questions_ne_nil
      (d.answer, d.contexts) hrq
  · intro hr hllm
    have hch : ∀ q, ∃ resp, qaChain r llm q = Except.ok resp ∧
        resp.source_documents = [] := by
      intro q
      obtain ⟨a, ha⟩ := hllm (stuffPrompt [] q)
      refine ⟨{ result := a, source_documents := [] }, ?_, rfl⟩
      rw [qaChain, retrieve, hr q]
      simp only [List.take_nil, ha]
    obtain ⟨p, hp, hctx⟩ := runQueries_empty_sources _ hch questions
    exact ⟨{ question := questions, answer := p.1, contexts := p.2,
             ground_truth := ground_truth },
      by simp only [executeRag, hp], hctx⟩

/-- Witness for C5: a raising retriever propagates its exception, and an
empty-returning retriever still yields a record with empty contexts. -/
theorem record_builder_failure_modes_w :
    executeRag (qaChain retrieverBoom llmConst) = Except.error "retrieval down" ∧
    (∃ d, executeRag (qaChain retrieverEmpty llmConst) = Except.ok d ∧
      d.contexts = List.replicate questions.length []) :=
  ⟨(record_builder_failure_modes retrieverBoom llmConst "retrieval down").1
      (fun _ => rfl),
   (record_builder_failure_modes retrieverEmpty llmConst "unused").2.2
      (fun _ => rfl) (fun _ => ⟨"generated answer", rfl⟩)⟩

/-- Claim C6: every context list of a built EvaluationRecord holds at most
`numberOfResults` (= 5) retrieved chunks, the configured retrieval limit. -/
theorem contexts_at_most_topk (r : Retriever) (llm : String → Except Err String)
    (d : RagData) (h : executeRag (qaChain r llm) = Except.ok d) :
    ∀ ctx ∈ d.contexts, ctx.length ≤ numberOfResults := by
  obtain ⟨_, _, hrq⟩ := executeRag_ok_inv _ d h
  exact runQueries_contexts_le r llm questions (d.answer, d.contexts) hrq

/-- Witness for C6 over a knowledge base ranking seven chunks per query. -/
theorem contexts_at_most_topk_w :
    executeRag (qaChain retrieverSeven llmConst) = Except.ok dataSeven ∧
    (List.replicate 5 "chunk").length ≤ numberOfResults :=
  ⟨rfl, contexts_at_most_topk retrieverSeven llmConst dataSeven rfl
    (List.replicate 5 "chunk") (by simp [dataSeven])⟩

/-- Claim C7 counterexample: the comparison view does not rank backends by
mean — `means_df` lists backends in registration order even when the first
registered backend has the strictly smaller mean on every metric. -/
theorem comparison_not_sorted_by_mean :
    (meansDf [("kb-low", dfLow), ("kb-high", dfHigh)]).map Prod.fst =
      ["kb-low", "kb-high"] ∧
    meanColumn dfLow 0 = some (1 / 5) ∧
    meanColumn dfHigh 0 = some (4 / 5) ∧
    (1 : Value) / 5 < 4 / 5 := by
  refine ⟨rfl, ?_, ?_, by norm_num⟩
  · norm_num [meanColumn, meanSkipNA, nanSumCount, columnOf, dfLow]
  · norm_num [meanColumn, meanSkipNA, nanSumCount, columnOf, dfHigh]

/-- Claim C7 (amended): for every metric the comparison view produced by
`means_df` lists the backends in registration order — it never reorders by
mean value — and this ordering is the same deterministic function of the
input on every invocation. -/
theorem comparison_in_registration_order (dfs : List (String × ScoreFrame)) :
    (meansDf dfs).map Prod.fst = dfs.map Prod.fst := by
  simp [meansDf, List.map_map]

/-- Claim C8: `summarize` is a pure function of the ResultTable — invoking
`means_df` twice on the same table yields identical summary rows, with no
dependence on hidden state (the embedding reads nothing but its argument). -/
theorem summarize_pure (dfs : List (String × ScoreFrame)) :
    meansDf dfs = meansDf dfs := rfl

/-- Claim C9: the four parallel lists of a built evaluation dataset are
aligned — question, answer, contexts and ground_truth all have the same
length, and the i-th answer and i-th context list were produced by invoking
the QA chain on the i-th question. -/
theorem dataset_lists_aligned (chain : String → Except Err ChainResponse)
    (d : RagData) (h : executeRag chain = Except.ok d) :
    d.question.length = d.answer.length ∧
    d.answer.length = d.contexts.length ∧
    d.contexts.length = d.ground_truth.length ∧
    ∀ i, i < d.question.length →
      ∃ resp, chain (d.question.getD i "") = Except.ok resp ∧
        d.answer.getD i "" = resp.result ∧
        d.contexts.getD i [] = resp.source_documents.map Document.page_content := by
  obtain ⟨hq, hg, hrq⟩ := executeRag_ok_inv chain d h
  obtain ⟨hl1, hl2, hpt⟩ := runQueries_ok_spec chain questions (d.answer, d.contexts) hrq
  refine ⟨?_, ?_, ?_, ?_⟩
  · rw [hq]
    exact hl1.symm
  · exact hl1.trans hl2.symm
  · rw [hl2, hg]
    rfl
  · intro i hi
    rw [hq] at hi ⊢
    exact hpt i hi

/-- Witness for C9 at a concrete healthy chain. -/
theorem dataset_lists_aligned_w :
    dataGood.question.length = dataGood.answer.length ∧
    (∃ resp, backendGood.chain (dataGood.question.getD 0 "") = Except.ok resp ∧
      dataGood.answer.getD 0 "" = resp.result ∧
      dataGood.contexts.getD 0 [] = resp.source_documents.map Document.page_content) :=
  ⟨(dataset_lists_aligned backendGood.chain dataGood rfl).1,
   (dataset_lists_aligned backendGood.chain dataGood rfl).2.2.2 0 (by decide)⟩

/-- Claim C10: every question stored in a built evaluation dataset is the
fixed instruction preamble (which begins "Keep your answers under 2000
characters in length.") concatenated with one of the original questions — the
raw text is never stored — and any two backends' datasets share the same
prefixed question list and the same ground-truth list. -/
theorem questions_share_preamble_and_data
    (chain1 chain2 : String → Except Err ChainResponse) (d1 d2 : RagData)
    (h1 : executeRag chain1 = Except.ok d1) (h2 : executeRag chain2 = Except.ok d2) :
    d1.question = questions ∧ d1.question = d2.question ∧
    d1.ground_truth = d2.ground_truth ∧
    (∀ q ∈ d1.question, ∃ raw ∈ rawQuestions, q = instructionPreamble ++ raw) ∧
    (∃ rest, instructionPreamble =
      "Keep your answers under 2000 characters in length." ++ rest) := by
  obtain ⟨hq1, hg1, _⟩ := executeRag_ok_inv chain1 d1 h1
  obtain ⟨hq2, hg2, _⟩ := executeRag_ok_inv chain2 d2 h2
  refine ⟨hq1, by rw [hq1, hq2], by rw [hg1, hg2], ?_,
    ⟨" Only use information you are sure about from the knowledge base. ", by decide⟩⟩
  intro q hq
  rw [hq1] at hq
  simp only [questions, List.mem_map] at hq
  obtain ⟨raw, hraw, rfl⟩ := hq
  exact ⟨raw, hraw, rfl⟩

/-- Witness for C10 at a concrete healthy chain. -/
theorem questions_share_preamble_and_data_w :
    dataGood.question = questions ∧
    (∃ rest, instructionPreamble =
      "Keep your answers under 2000 characters in length." ++ rest) :=
  ⟨(questions_share_preamble_and_data backendGood.chain backendGood.chain
      dataGood dataGood rfl rfl).1,
   (questions_share_preamble_and_data backendGood.chain backendGood.chain
      dataGood dataGood rfl rfl).2.2.2.2⟩
